import Mathlib

/-!
Verification development for the physician-notetaker pipeline.

Shallow embedding of the Python sources (`src/ner.py`, `src/sentiment.py`,
`src/summarizer.py`, `src/soap_generator.py`, `src/main.py`).  External
inference collaborators (the spaCy pipeline, the zero-shot classifier and the
abstractive summarizer) are modelled as function parameters returning
`Except String _`: an `Except.error` value represents the collaborator
raising an exception, mirroring Python `try`/`except` control flow.
Python strings are modelled as Lean `String`s; `str.lower` is modelled as a
character-wise `Char.toLower` (all fixed terms in the program are ASCII);
Python floats are modelled as exact rationals.
-/

/-- Characters treated as whitespace by Python `str.strip` / `\s`
(ASCII subset, which covers the program's fixed vocabulary). -/
def isPySpace (c : Char) : Bool :=
  c = ' ' || c = '\t' || c = '\n' || c = '\x0b' || c = '\x0c' || c = '\r'

/-- Python `not text or not text.strip()`: the string is empty or
consists only of whitespace. -/
def isBlank (s : String) : Bool :=
  s.data.all isPySpace

/-- Python `str.lower`, modelled character-wise. -/
def pyLower (s : String) : String :=
  String.mk (s.data.map Char.toLower)

/-- Python `sep.join(l)`. -/
def joinSep (sep : String) : List String → String
  | [] => ""
  | [x] => x
  | x :: y :: rest => x ++ sep ++ joinSep sep (y :: rest)

/-- Python `str.strip()` restricted to whitespace. -/
def pyStrip (cs : List Char) : List Char :=
  ((cs.dropWhile isPySpace).reverse.dropWhile isPySpace).reverse

/-- One pass of `re.sub(r'\s+', ' ', text)`: every maximal whitespace run
becomes a single space. -/
def squeezeSpaces : List Char → List Char
  | [] => []
  | c :: rest =>
    let c2 := if isPySpace c then ' ' else c
    match rest with
    | [] => [c2]
    | d :: _ =>
      if isPySpace c && isPySpace d then squeezeSpaces rest
      else c2 :: squeezeSpaces rest

/-- Round half to even (Python `round` tie-breaking). -/
def pyRoundInt (q : ℚ) : ℤ :=
  let f := ⌊q⌋
  let r := q - f
  if r < 1/2 then f
  else if 1/2 < r then f + 1
  else if f % 2 = 0 then f else f + 1

/-- Python `round(x, 4)` over exact rationals. -/
def pyRound4 (q : ℚ) : ℚ :=
  (pyRoundInt (q * 10000) : ℚ) / 10000

/-! ## NER module (`src/ner.py`) -/

/-- A spaCy entity span: `ent.text` and `ent.label_`. -/
structure Span where
  text : String
  label : String
deriving Repr, DecidableEq

/-- One extracted entity record (`value` / `confidence` / `source`). -/
structure Entity where
  value : String
  confidence : ℚ
  source : String
deriving Repr, DecidableEq

/-- The four entity categories. -/
inductive Category
  | symptoms
  | diagnosis
  | treatment
  | prognosis
deriving Repr, DecidableEq

/-- The `results` dictionary of `extract_entities`, with its four fixed keys. -/
structure Entities where
  symptoms : List Entity
  diagnosis : List Entity
  treatment : List Entity
  prognosis : List Entity
deriving Repr, DecidableEq

def Entities.empty : Entities := ⟨[], [], [], []⟩

def Entities.getCat (r : Entities) : Category → List Entity
  | .symptoms => r.symptoms
  | .diagnosis => r.diagnosis
  | .treatment => r.treatment
  | .prognosis => r.prognosis

/-- `results[category].append(e)`. -/
def Entities.add (r : Entities) : Category → Entity → Entities
  | .symptoms, e => { r with symptoms := r.symptoms ++ [e] }
  | .diagnosis, e => { r with diagnosis := r.diagnosis ++ [e] }
  | .treatment, e => { r with treatment := r.treatment ++ [e] }
  | .prognosis, e => { r with prognosis := r.prognosis ++ [e] }

/-- All entries of the four lists, in key order. -/
def Entities.allEntities (r : Entities) : List Entity :=
  r.symptoms ++ r.diagnosis ++ r.treatment ++ r.prognosis

/-- Python `any(results.values())`: some category list is non-empty. -/
def Entities.nonempty (r : Entities) : Bool :=
  !r.symptoms.isEmpty || !r.diagnosis.isEmpty ||
    !r.treatment.isEmpty || !r.prognosis.isEmpty

/-- The `mapping` dictionary from spaCy labels to result keys. -/
def labelCategory (l : String) : Option Category :=
  if l = "SYMPTOM" then some .symptoms
  else if l = "DIAGNOSIS" then some .diagnosis
  else if l = "TREATMENT" then some .treatment
  else if l = "PROGNOSIS" then some .prognosis
  else none

/-- The loop over `doc.ents` in `extract_entities`: a single `seen` set of
lowercased values is shared across all four categories. -/
def tier1Aux (acc : Entities) (seen : List String) : List Span → Entities
  | [] => acc
  | sp :: rest =>
    match labelCategory sp.label with
    | none => tier1Aux acc seen rest
    | some c =>
      let lo := pyLower sp.text
      if lo ∈ seen then tier1Aux acc seen rest
      else
        tier1Aux (acc.add c ⟨sp.text, 98/100, "rule-based"⟩) (seen ++ [lo]) rest

/-- The spaCy (precision) tier of `extract_entities`, as a function of the
entity spans returned by the external matcher. -/
def tier1 (ents : List Span) : Entities :=
  tier1Aux Entities.empty [] ents

/-- The fixed per-category fallback term table (`patterns` in
`extract_entities`). -/
def termsOf : Category → List String
  | .symptoms =>
    ["fever", "cough", "headache", "fatigue", "nausea", "pain",
     "shortness of breath", "chest pain"]
  | .diagnosis =>
    ["hypertension", "diabetes", "asthma", "bronchitis", "influenza",
     "pneumonia"]
  | .treatment =>
    ["aspirin", "ibuprofen", "antibiotics", "paracetamol", "rest", "fluids",
     "inhaler"]
  | .prognosis =>
    ["good", "stable", "improving", "guarded", "chronic"]

/-- `re.search(re.escape(term), text, re.IGNORECASE)`: the first window of
`cs` whose character-wise lowering equals `term`, in original casing. -/
def findCI (term : List Char) : List Char → Option (List Char)
  | [] => if term = [] then some [] else none
  | c :: rest =>
    if (List.take term.length (c :: rest)).map Char.toLower = term then
      some (List.take term.length (c :: rest))
    else findCI term rest

/-- The inner loop of the lexical fallback tier for one category's term
list, starting from the already-collected entries `acc`. -/
def fallbackAux (text : String) (acc : List Entity) : List String → List Entity
  | [] => acc
  | term :: rest =>
    if term.data <:+: (pyLower text).data then
      let val := (findCI term.data text.data).elim term String.mk
      if acc.any (fun r => pyLower r.value = term) then fallbackAux text acc rest
      else fallbackAux text (acc ++ [⟨val, 90/100, "regex-fallback"⟩]) rest
    else fallbackAux text acc rest

/-- The lexical fallback tier entries for one category. -/
def fallbackCat (text : String) (c : Category) : List Entity :=
  fallbackAux text [] (termsOf c)

/-- The whole lexical fallback tier of `extract_entities`. -/
def fallback (text : String) : Entities :=
  ⟨fallbackCat text .symptoms, fallbackCat text .diagnosis,
   fallbackCat text .treatment, fallbackCat text .prognosis⟩

/-- `MedicalNER.extract_entities`.  `nlp` models `self.nlp`: `none` when
spaCy is unavailable, otherwise a function producing the matcher's entity
spans or raising (`Except.error`). -/
def extract_entities (nlp : Option (String → Except String (List Span)))
    (text : String) : Except String Entities :=
  if isBlank text then .ok Entities.empty
  else
    match nlp with
    | some f =>
      match f text with
      | .error e => .error e
      | .ok ents =>
        let r := tier1 ents
        if r.nonempty then .ok r else .ok (fallback text)
    | none => .ok (fallback text)

/-- One keyword tag. -/
structure Keyword where
  keyword : String
  confidence : ℚ
deriving Repr, DecidableEq

/-- `MedicalNER.extract_keywords`; `kw` models the zero-shot classifier call
returning ranked (label, score) pairs or raising. -/
def extract_keywords (kw : String → Except String (List (String × ℚ)))
    (text : String) : List Keyword :=
  if isBlank text then []
  else
    match kw text with
    | .error _ => []
    | .ok pairs =>
      (pairs.filter (fun p => 3/10 < p.2)).map
        (fun p => ⟨p.1, pyRound4 p.2⟩)

/-- The `entities` value inside the `process` payload: either the empty
dictionary `{}` (error branch) or the full four-key dictionary. -/
inductive EntitiesDict
  | empty
  | full (e : Entities)
deriving Repr, DecidableEq

/-- `entities.get(key, [])` on the possibly-empty dictionary. -/
def EntitiesDict.getCat : EntitiesDict → Category → List Entity
  | .empty, _ => []
  | .full e, c => e.getCat c

/-- The return payload of `MedicalNER.process`. -/
structure ProcessOut where
  error : Option String
  entities : EntitiesDict
  keywords : List Keyword
  status : String
deriving Repr, DecidableEq

/-- `MedicalNER.process`. -/
def process (nlp : Option (String → Except String (List Span)))
    (kw : String → Except String (List (String × ℚ)))
    (text : String) : ProcessOut :=
  if isBlank text then ⟨none, .full Entities.empty, [], "empty_input"⟩
  else
    match extract_entities nlp text with
    | .error e => ⟨some ("NER processing failed: " ++ e), .empty, [], "error"⟩
    | .ok ents => ⟨none, .full ents, extract_keywords kw text, "success"⟩

instance exceptDecEq {ε α : Type} [DecidableEq ε] [DecidableEq α] :
    DecidableEq (Except ε α) := fun a b =>
  match a, b with
  | .ok x, .ok y =>
    if h : x = y then .isTrue (by rw [h]) else .isFalse (by simp [h])
  | .error x, .error y =>
    if h : x = y then .isTrue (by rw [h]) else .isFalse (by simp [h])
  | .ok _, .error _ => .isFalse (by simp)
  | .error _, .ok _ => .isFalse (by simp)

example : isBlank "  \t\n" = true := by decide
example : isBlank "Patient has fever." = false := by decide
example :
    extract_entities none "Fever. Patient still has fever."
      = .ok ⟨[⟨"Fever", 90/100, "regex-fallback"⟩], [], [], []⟩ := rfl
example :
    extract_entities (some (fun _ => .ok [⟨"Fever", "SYMPTOM"⟩, ⟨"fever", "SYMPTOM"⟩]))
      "Fever. Patient still has fever."
      = .ok ⟨[⟨"Fever", 98/100, "rule-based"⟩], [], [], []⟩ := rfl

/-! ## Sentiment/intent module (`src/sentiment.py`) -/

/-- A label/confidence pair. -/
structure LC where
  label : String
  confidence : ℚ
deriving Repr, DecidableEq

/-- The return payload of `SentimentIntentAnalyzer.analyze`. -/
structure AnalyzeOut where
  error : Option String
  sentiment : LC
  intent : LC
  status : String
  model : Option String
deriving Repr, DecidableEq

/-- The fixed sentiment taxonomy (`self.sentiment_classes`). -/
def sentiment_classes : List String :=
  ["Anxious", "Neutral", "Reassured", "Frustrated", "Hopeful"]

/-- The fixed intent taxonomy (`self.intent_classes`). -/
def intent_classes : List String :=
  ["Reporting Symptoms", "Seeking Reassurance", "Expressing Relief",
   "Requesting Medication", "Inquiring about Prognosis"]

/-- The `except` payload of `analyze`. -/
def analyzeErrorOut (e : String) : AnalyzeOut :=
  ⟨some ("Sentiment/Intent analysis failed: " ++ e),
   ⟨"Error", 0⟩, ⟨"Error", 0⟩, "error", none⟩

/-- `SentimentIntentAnalyzer.analyze`; `cl` models the zero-shot classifier
(ranked (label, score) pairs, or a raised exception).  An empty ranking makes
the `[0]` index raise, which the `except` clause also converts. -/
def analyze (cl : String → List String → Except String (List (String × ℚ)))
    (text : String) : AnalyzeOut :=
  if isBlank text then
    ⟨none, ⟨"N/A", 0⟩, ⟨"N/A", 0⟩, "empty_input", none⟩
  else
    match cl text sentiment_classes with
    | .error e => analyzeErrorOut e
    | .ok sres =>
      match cl text intent_classes with
      | .error e => analyzeErrorOut e
      | .ok ires =>
        match sres, ires with
        | [], _ => analyzeErrorOut "list index out of range"
        | _, [] => analyzeErrorOut "list index out of range"
        | s :: _, i :: _ =>
          ⟨none, ⟨s.1, pyRound4 s.2⟩, ⟨i.1, pyRound4 i.2⟩, "success",
           some "bart-large-mnli"⟩

/-! ## Summarizer module (`src/summarizer.py`) -/

/-- The `metadata` value of a summary payload. -/
inductive SummaryMeta
  | empty
  | success (model : String) (input_length output_length : ℕ)
  | errorDetail (detail : String)
deriving Repr, DecidableEq

/-- The `prognosis` field of a summary: the placeholder string, or the
entity-derived list written by the orchestrator's enrichment. -/
inductive ProgField
  | str (s : String)
  | list (l : List String)
deriving Repr, DecidableEq

/-- The summary payload dictionary; absent keys are `none`. -/
structure Summary where
  patient_name : Option String
  summary_text : String
  symptoms : Option (List String)
  diagnosis : Option (List String)
  treatment : Option (List String)
  current_status : Option String
  prognosis : Option ProgField
  status : String
  meta : SummaryMeta
deriving Repr, DecidableEq

/-- `MedicalSummarizer.clean_transcript`. -/
def clean_transcript (text : String) : String :=
  if text = "" then ""
  else String.mk (pyStrip (squeezeSpaces text.data))

/-- `MedicalSummarizer.summarize`; `summ` models the external abstractive
summarization service applied to the cleaned text. -/
def summarize (summ : String → Except String String) (text : String) :
    Summary :=
  if isBlank text then
    ⟨none, "Empty transcript provided.", none, none, none, none, none,
     "empty_input", .empty⟩
  else
    let cleaned := clean_transcript text
    match summ cleaned with
    | .ok st =>
      ⟨some "Unknown", st, some [], some [], some [], some "Stable",
       some (.str "Good"), "success",
       .success "distilbart-cnn-12-6" cleaned.length st.length⟩
    | .error e =>
      ⟨none, "Summarization failed: " ++ e, none, none, none, none, none,
       "error", .errorDetail e⟩

/-! ## SOAP generator (`src/soap_generator.py`) -/

/-- Leading digits of a character list. -/
def leadingDigits : List Char → List Char
  | [] => []
  | c :: rest => if c.isDigit then c :: leadingDigits rest else []

/-- Match exactly `k` digits followed by a slash at the head of `cs`,
returning the consumed characters and the remainder. -/
def matchDigitsSlash (cs : List Char) (k : ℕ) : Option (List Char × List Char) :=
  let ds := cs.take k
  if ds.length = k ∧ ds.all Char.isDigit ∧ (cs.drop k).head? = some '/' then
    some (ds ++ ['/'], cs.drop (k + 1))
  else none

/-- Attempt to match the regex `\d{2,3}/\d{2,3}` anchored at the head of
`cs`, with Python's greedy/backtracking semantics for the first quantifier
(three digits preferred over two; if three digits then a slash succeed, the
two-digit alternative necessarily fails, so committing is sound). -/
def bpMatchAt (cs : List Char) : Option (List Char) :=
  match (matchDigitsSlash cs 3).orElse (fun _ => matchDigitsSlash cs 2) with
  | none => none
  | some (pre, rest) =>
    let ds := (leadingDigits rest).take 3
    if 2 ≤ ds.length then some (pre ++ ds) else none

/-- `re.search(r'(\d{2,3}/\d{2,3})', transcript)`: the leftmost match. -/
def bpSearch : List Char → Option (List Char)
  | [] => none
  | c :: rest => (bpMatchAt (c :: rest)).orElse (fun _ => bpSearch rest)

/-- Python `x in transcript_lower` for one trigger term. -/
def mentions (tl : String) (x : String) : Prop :=
  x.data <:+: tl.data

instance (tl x : String) : Decidable (mentions tl x) :=
  inferInstanceAs (Decidable (_ <:+: _))

/-- The `findings` list accumulated by `_generate_objective`: the four
trigger-group checks over the lowercased transcript, then the first
`\d{2,3}/\d{2,3}` match over the original transcript. -/
def objFindings (transcript : String) : List String :=
  (if mentions (pyLower transcript) "blood pressure" ∨
      mentions (pyLower transcript) "bp" ∨
      mentions (pyLower transcript) "hypertension"
   then ["Blood pressure discussed"] else [])
  ++ (if mentions (pyLower transcript) "fever" ∨
         mentions (pyLower transcript) "temperature" ∨
         mentions (pyLower transcript) "temp" ∨
         mentions (pyLower transcript) "degrees"
      then ["Body temperature noted"] else [])
  ++ (if mentions (pyLower transcript) "heart rate" ∨
         mentions (pyLower transcript) "pulse" ∨
         mentions (pyLower transcript) "bpm"
      then ["Heart rate discussed"] else [])
  ++ (if mentions (pyLower transcript) "lungs" ∨
         mentions (pyLower transcript) "breath" ∨
         mentions (pyLower transcript) "respiratory" ∨
         mentions (pyLower transcript) "breathing"
      then ["Respiratory status mentioned"] else [])
  ++ (match bpSearch transcript.data with
      | some m => ["Recorded BP: " ++ String.mk m]
      | none => [])

/-- `SOAPGenerator._generate_objective`. -/
def generate_objective (transcript : String) : String :=
  if objFindings transcript = [] then
    "Physical examination findings not explicitly detailed in the transcript. Vitals discussed were within normal limits unless otherwise specified."
  else
    "Objective observations and vitals: " ++ joinSep "; " (objFindings transcript) ++ "."

/-- `SOAPGenerator._generate_subjective`. -/
def generate_subjective (entities : EntitiesDict) (summary : Summary) :
    String :=
  let symptoms := (entities.getCat .symptoms).map (·.value)
  let symptom_str :=
    if symptoms = [] then "No acute symptoms specifically reported by the patient."
    else "Patient reports the following symptoms: " ++ joinSep ", " symptoms ++ "."
  symptom_str ++ " " ++ summary.summary_text

/-- `SOAPGenerator._generate_assessment`. -/
def generate_assessment (entities : EntitiesDict) : String :=
  let diagnoses := (entities.getCat .diagnosis).map (·.value)
  if diagnoses = [] then
    "Clinical impression: Assessment pending further evaluation and diagnostic results."
  else
    "Primary assessment and clinical impression: " ++ joinSep ", " diagnoses ++ "."

/-- `SOAPGenerator._generate_plan`. -/
def generate_plan (entities : EntitiesDict) : String :=
  let treatments := (entities.getCat .treatment).map (·.value)
  let prognosis := (entities.getCat .prognosis).map (·.value)
  let treatment_str :=
    if treatments = [] then "Management Plan: Continue current monitoring; follow-up as needed."
    else "Management Plan: " ++ joinSep ", " treatments ++ "."
  let prognosis_str :=
    if prognosis = [] then "Prognosis: Stable."
    else "Prognosis is considered " ++ joinSep ", " prognosis ++ "."
  treatment_str ++ " " ++ prognosis_str

/-- A four-section SOAP note. -/
structure SOAPNote where
  Subjective : String
  Objective : String
  Assessment : String
  Plan : String
deriving Repr, DecidableEq

/-- `SOAPGenerator.generate`. -/
def generate (transcript : String) (ner_results : ProcessOut)
    (summary_results : Summary) : SOAPNote :=
  let entities := ner_results.entities
  ⟨generate_subjective entities summary_results,
   generate_objective transcript,
   generate_assessment entities,
   generate_plan entities⟩

/-! ## Orchestrator (`src/main.py`) -/

/-- The summary-enrichment step of `PhysicianNotetakerPipeline.run`
(`summary_results.update({...})` guarded by `if entities:`; the empty
dictionary `{}` is falsy, the four-key dictionary is truthy). -/
def enrich (ner : ProcessOut) (s : Summary) : Summary :=
  match ner.entities with
  | .empty => s
  | .full e =>
    { s with
      symptoms := some (e.symptoms.map (·.value)),
      diagnosis := some (e.diagnosis.map (·.value)),
      treatment := some (e.treatment.map (·.value)),
      prognosis := some (.list (e.prognosis.map (·.value))) }

/-- The audit document assembled by `run` (`final_output`). -/
structure AuditDoc where
  system : String
  timestamp : String
  processing_time_sec : ℚ
  transcript_length : ℕ
  auditability : String
  device : String
  clinical_summary : Summary
  medical_entities : ProcessOut
  sentiment_and_intent : AnalyzeOut
  soap_note : SOAPNote
  confidence_audit : String
  extensibility : String
deriving Repr, DecidableEq

/-- A failure envelope (`status = "failed"`); the empty-input branch carries
no timestamp, the exception branch does. -/
structure FailureDoc where
  error : String
  status : String
  timestamp : Option String
deriving Repr, DecidableEq

/-- The result of `PhysicianNotetakerPipeline.run`. -/
inductive RunOutput
  | ok (doc : AuditDoc)
  | failed (f : FailureDoc)
deriving Repr, DecidableEq

/-- `PhysicianNotetakerPipeline.run`.  External collaborators are passed as
parameters; `saveRes` models the file-system side of `_save_results`
(`os.makedirs` may raise, which the orchestrator's catch-all converts);
`timestamp` and `elapsed` model the wall-clock reads. -/
def run (nlp : Option (String → Except String (List Span)))
    (kw : String → Except String (List (String × ℚ)))
    (summ : String → Except String String)
    (cl : String → List String → Except String (List (String × ℚ)))
    (saveRes : Except String Unit) (timestamp : String) (elapsed : ℚ)
    (transcript : String) : RunOutput :=
  if isBlank transcript then
    .failed ⟨"Empty transcript provided", "failed", none⟩
  else
    let ner_results := process nlp kw transcript
    let summary_results := enrich ner_results (summarize summ transcript)
    let sentiment_intent := analyze cl transcript
    let soap_note := generate transcript ner_results summary_results
    match saveRes with
    | .error e =>
      .failed ⟨"Internal pipeline error: " ++ e, "failed", some timestamp⟩
    | .ok _ =>
      .ok ⟨"Physician Notetaker AI v1.1", timestamp, pyRound4 elapsed,
           transcript.length,
           "Confidence scores and source attribution included for all AI-generated fields.",
           "CPU (Offline-friendly)",
           summary_results, ner_results, sentiment_intent, soap_note,
           "Rule-based NER provides high precision for clinical terms. BART-based summarization and Zero-shot classification provide high-recall insights.",
           "The pipeline uses standardized JSON interfaces, making it compatible with FHIR/HL7 standards for future EHR integrations."⟩

example :
    generate_objective "Patient BP 120/80 today."
      = "Objective observations and vitals: Blood pressure discussed; Recorded BP: 120/80." := rfl
example :
    generate_objective "Hello there."
      = "Physical examination findings not explicitly detailed in the transcript. Vitals discussed were within normal limits unless otherwise specified." := rfl
example :
    generate_objective "Earlier reading 55/66. BP 120/80"
      = "Objective observations and vitals: Blood pressure discussed; Recorded BP: 55/66." := rfl
example :
    bpSearch "x 1234/80 y".data = some "234/80".data := rfl

/-! ## Helper lemmas -/

theorem joinSep_infix_of_mem (sep a : String) :
    ∀ l : List String, a ∈ l → a.data <:+: (joinSep sep l).data := by
  intro l
  induction l with
  | nil => intro h; cases h
  | cons x rest ih =>
    intro h
    cases rest with
    | nil =>
      cases h with
      | head => exact List.infix_refl _
      | tail _ h2 => cases h2
    | cons y rest2 =>
      cases h with
      | head =>
        show a.data <:+: (a ++ sep ++ joinSep sep (y :: rest2)).data
        rw [String.data_append, String.data_append]
        exact ⟨[], sep.data ++ (joinSep sep (y :: rest2)).data, by
          simp [List.append_assoc]⟩
      | tail _ h2 =>
        have hin := ih h2
        refine hin.trans ?_
        show (joinSep sep (y :: rest2)).data <:+: (x ++ sep ++ joinSep sep (y :: rest2)).data
        rw [String.data_append, String.data_append]
        exact ⟨x.data ++ sep.data, [], by simp [List.append_assoc]⟩

theorem allEntities_add_perm (r : Entities) (c : Category) (e : Entity) :
    List.Perm ((r.add c e).allEntities) (e :: r.allEntities) := by
  cases c
  · simp only [Entities.add, Entities.allEntities]
    simp [List.append_assoc]
  · simp only [Entities.add, Entities.allEntities]
    simpa [List.append_assoc] using
      @List.perm_middle Entity e (r.symptoms ++ r.diagnosis)
        (r.treatment ++ r.prognosis)
  · simp only [Entities.add, Entities.allEntities]
    simpa [List.append_assoc] using
      @List.perm_middle Entity e
        (r.symptoms ++ r.diagnosis ++ r.treatment) r.prognosis
  · simp only [Entities.add, Entities.allEntities]
    simpa [List.append_assoc] using
      @List.perm_middle Entity e
        (r.symptoms ++ r.diagnosis ++ r.treatment ++ r.prognosis)
        ([] : List Entity)

theorem getCat_sublist (r : Entities) (c : Category) :
    List.Sublist (r.getCat c) r.allEntities := by
  cases c <;> simp only [Entities.getCat, Entities.allEntities, List.append_assoc]
  · exact List.sublist_append_left _ _
  · exact ((List.sublist_append_left _ _).trans
      (List.sublist_append_right _ _))
  · exact (((List.sublist_append_left _ _).trans
      (List.sublist_append_right _ _)).trans (List.sublist_append_right _ _))
  · exact (((List.sublist_append_right _ _).trans
      (List.sublist_append_right _ _)).trans (List.sublist_append_right _ _))

theorem tier1Aux_nodup (sps : List Span) :
    ∀ (acc : Entities) (seen : List String),
      (∀ e ∈ acc.allEntities, pyLower e.value ∈ seen) →
      (acc.allEntities.map fun e => pyLower e.value).Nodup →
      ((tier1Aux acc seen sps).allEntities.map fun e => pyLower e.value).Nodup := by
  induction sps with
  | nil => intro acc seen _ h2; simpa [tier1Aux] using h2
  | cons sp rest ih =>
    intro acc seen h1 h2
    simp only [tier1Aux]
    split
    · exact ih acc seen h1 h2
    · split
      · exact ih acc seen h1 h2
      · rename_i c heq hm
        have hperm := allEntities_add_perm acc c ⟨sp.text, 98/100, "rule-based"⟩
        apply ih
        · intro e he
          rcases List.mem_cons.1 ((hperm.mem_iff).1 he) with he2 | he2
          · rw [he2]
            exact List.mem_append_right _ (by simp)
          · exact List.mem_append_left _ (h1 e he2)
        · have hmap := hperm.map (fun e => pyLower e.value)
          rw [hmap.nodup_iff]
          refine List.Nodup.cons ?_ h2
          intro hmem
          rcases List.mem_map.1 hmem with ⟨e, he, heq2⟩
          replace heq2 : pyLower e.value = pyLower sp.text := heq2
          exact hm (heq2 ▸ h1 e he)

theorem tier1Aux_src (sps : List Span) :
    ∀ (acc : Entities) (seen : List String),
      ∀ e ∈ (tier1Aux acc seen sps).allEntities,
        e ∈ acc.allEntities ∨
          (e.confidence = 98/100 ∧ e.source = "rule-based") := by
  induction sps with
  | nil => intro acc seen e he; exact .inl (by simpa [tier1Aux] using he)
  | cons sp rest ih =>
    intro acc seen e he
    simp only [tier1Aux] at he
    split at he
    · exact ih acc seen e he
    · split at he
      · exact ih acc seen e he
      · rename_i c heq hm
        rcases ih _ _ e he with h2 | h2
        · have hperm := allEntities_add_perm acc c ⟨sp.text, 98/100, "rule-based"⟩
          rcases List.mem_cons.1 (hperm.mem_iff.1 h2) with h3 | h3
          · exact .inr (by rw [h3]; exact ⟨rfl, rfl⟩)
          · exact .inl h3
        · exact .inr h2

theorem findCI_lower (term : List Char) :
    ∀ cs w, findCI term cs = some w → w.map Char.toLower = term := by
  intro cs
  induction cs with
  | nil =>
    intro w h
    simp only [findCI] at h
    split at h
    · rename_i ht
      cases h
      simpa using ht.symm
    · cases h
  | cons c rest ih =>
    intro w h
    simp only [findCI] at h
    split at h
    · rename_i ht
      cases h
      exact ht
    · exact ih w h

theorem fallback_val_lower (term text : String) (h : pyLower term = term) :
    pyLower ((findCI term.data text.data).elim term String.mk) = term := by
  cases hf : findCI term.data text.data with
  | none => simpa [Option.elim] using h
  | some w =>
    have hw := findCI_lower term.data text.data w hf
    show pyLower (String.mk w) = term
    have : pyLower (String.mk w) = String.mk (w.map Char.toLower) := rfl
    rw [this, hw]

theorem fallbackAux_subset (text : String) (ts : List String) :
    ∀ acc, ∀ e ∈ acc, e ∈ fallbackAux text acc ts := by
  induction ts with
  | nil => intro acc e he; simpa [fallbackAux] using he
  | cons term rest ih =>
    intro acc e he
    simp only [fallbackAux]
    split
    · split
      · exact ih acc e he
      · exact ih _ e (List.mem_append_left _ he)
    · exact ih acc e he

theorem fallbackAux_src (text : String) (ts : List String) :
    ∀ acc, ∀ e ∈ fallbackAux text acc ts,
      e ∈ acc ∨ (e.confidence = 90/100 ∧ e.source = "regex-fallback") := by
  induction ts with
  | nil => intro acc e he; exact .inl (by simpa [fallbackAux] using he)
  | cons term rest ih =>
    intro acc e he
    simp only [fallbackAux] at he
    split at he
    · split at he
      · exact ih acc e he
      · rcases ih _ e he with h2 | h2
        · rcases List.mem_append.1 h2 with h3 | h3
          · exact .inl h3
          · refine .inr ?_
            rcases List.mem_singleton.1 h3 with rfl
            exact ⟨rfl, rfl⟩
        · exact .inr h2
    · exact ih acc e he

theorem fallbackAux_nodup (text : String) (ts : List String) :
    ∀ acc, (∀ t ∈ ts, pyLower t = t) →
      (acc.map fun e => pyLower e.value).Nodup →
      ((fallbackAux text acc ts).map fun e => pyLower e.value).Nodup := by
  induction ts with
  | nil => intro acc _ h3; simpa [fallbackAux] using h3
  | cons term rest ih =>
    intro acc h1 h3
    simp only [fallbackAux]
    split
    · split
      · exact ih acc (fun t ht => h1 t (List.mem_cons_of_mem _ ht)) h3
      · rename_i hin hany
        refine ih _ (fun t ht => h1 t (List.mem_cons_of_mem _ ht)) ?_
        rw [List.map_append]
        have hvl : pyLower ((findCI term.data text.data).elim term String.mk)
            = term :=
          fallback_val_lower term text (h1 term (List.mem_cons_self _ _))
        have hnotin : term ∉ acc.map fun e => pyLower e.value := by
          intro hmem
          rcases List.mem_map.1 hmem with ⟨r, hr, hrq⟩
          replace hrq : pyLower r.value = term := hrq
          have h5 : (acc.any fun r2 => decide (pyLower r2.value = term)) = true :=
            List.any_eq_true.2 ⟨r, hr, by simp [hrq]⟩
          exact hany h5
        simp only [List.map_cons, List.map_nil, hvl]
        rw [List.nodup_append]
        exact ⟨h3, List.nodup_singleton _, by simpa using hnotin⟩
    · exact ih acc (fun t ht => h1 t (List.mem_cons_of_mem _ ht)) h3

theorem fallbackAux_populated (text : String) (ts : List String) :
    ∀ acc term, term ∈ ts → pyLower term = term →
      term.data <:+: (pyLower text).data →
      ∃ e ∈ fallbackAux text acc ts, pyLower e.value = term := by
  induction ts with
  | nil => intro acc term h; cases h
  | cons t2 rest ih =>
    intro acc term hmem hlow hinf
    rcases List.mem_cons.1 hmem with rfl | hmem2
    · simp only [fallbackAux]
      rw [if_pos hinf]
      split
      · rename_i hany
        rcases List.any_eq_true.1 hany with ⟨r, hr, hrq⟩
        refine ⟨r, fallbackAux_subset text rest acc r hr, by simpa using hrq⟩
      · refine ⟨⟨(findCI term.data text.data).elim term String.mk, 90/100,
          "regex-fallback"⟩, ?_, ?_⟩
        · exact fallbackAux_subset text rest _ _
            (List.mem_append_right _ (by simp))
        · exact fallback_val_lower term text hlow
    · simp only [fallbackAux]
      split
      · split
        · exact ih acc term hmem2 hlow hinf
        · exact ih _ term hmem2 hlow hinf
      · exact ih acc term hmem2 hlow hinf

theorem terms_lower (c : Category) : ∀ t ∈ termsOf c, pyLower t = t := by
  cases c <;> decide

theorem fallback_getCat (text : String) (c : Category) :
    (fallback text).getCat c = fallbackCat text c := by
  cases c <;> rfl

theorem extract_entities_ok_nodup :
    ∀ (nlp : Option (String → Except String (List Span))) (text : String)
      (r : Entities), extract_entities nlp text = .ok r →
      ∀ c, ((r.getCat c).map fun e => pyLower e.value).Nodup := by
  intro nlp text r h c
  have hempty : ((Entities.empty.getCat c).map fun e => pyLower e.value).Nodup := by
    cases c <;> simp [Entities.empty, Entities.getCat]
  have hfb : (((fallback text).getCat c).map fun e => pyLower e.value).Nodup := by
    rw [fallback_getCat]
    exact fallbackAux_nodup text (termsOf c) [] (terms_lower c) (by simp)
  have htier : ∀ ents : List Span,
      (((tier1 ents).getCat c).map fun e => pyLower e.value).Nodup := by
    intro ents
    have hglob := tier1Aux_nodup ents Entities.empty []
      (by simp [Entities.empty, Entities.allEntities])
      (by simp [Entities.empty, Entities.allEntities])
    exact hglob.sublist ((getCat_sublist _ c).map _)
  simp only [extract_entities] at h
  split at h
  · injection h with h2
    rw [← h2]
    exact hempty
  · split at h
    · split at h
      · cases h
      · split at h
        · injection h with h2
          rw [← h2]
          exact htier _
        · injection h with h2
          rw [← h2]
          exact hfb
    · injection h with h2
      rw [← h2]
      exact hfb

theorem fallback_allEntities_src (text : String) :
    ∀ e ∈ (fallback text).allEntities,
      e.confidence = 90/100 ∧ e.source = "regex-fallback" := by
  intro e he
  simp only [fallback, Entities.allEntities] at he
  have hone : ∀ c : Category, e ∈ fallbackCat text c →
      e.confidence = 90/100 ∧ e.source = "regex-fallback" := by
    intro c hc
    rcases fallbackAux_src text (termsOf c) [] e hc with h2 | h2
    · cases h2
    · exact h2
  rcases List.mem_append.1 he with h1 | h1
  · rcases List.mem_append.1 h1 with h2 | h2
    · rcases List.mem_append.1 h2 with h3 | h3
      · exact hone .symptoms h3
      · exact hone .diagnosis h3
    · exact hone .treatment h2
  · exact hone .prognosis h1

theorem extract_entities_ok_src :
    ∀ (nlp : Option (String → Except String (List Span))) (text : String)
      (r : Entities), extract_entities nlp text = .ok r →
      ∀ e ∈ r.allEntities,
        (e.confidence = 98/100 ∧ e.source = "rule-based") ∨
          (e.confidence = 90/100 ∧ e.source = "regex-fallback") := by
  intro nlp text r h e he
  simp only [extract_entities] at h
  split at h
  · injection h with h2
    rw [← h2] at he
    simp [Entities.empty, Entities.allEntities] at he
  · split at h
    · split at h
      · cases h
      · split at h
        · injection h with h2
          rw [← h2] at he
          rcases tier1Aux_src _ Entities.empty [] e he with h3 | h3
          · simp [Entities.empty, Entities.allEntities] at h3
          · exact .inl h3
        · injection h with h2
          rw [← h2] at he
          exact .inr (fallback_allEntities_src text e he)
    · injection h with h2
      rw [← h2] at he
      exact .inr (fallback_allEntities_src text e he)

theorem objective_infix_of_mem (t s : String) (hs : s ∈ objFindings t) :
    s.data <:+: (generate_objective t).data := by
  have hne : objFindings t ≠ [] := List.ne_nil_of_mem hs
  simp only [generate_objective]
  rw [if_neg hne]
  refine (joinSep_infix_of_mem "; " s (objFindings t) hs).trans ?_
  rw [String.data_append, String.data_append]
  exact ⟨"Objective observations and vitals: ".data, ".".data, by
    simp [List.append_assoc]⟩

/-! ## Claim theorems -/

/-- C1: for a non-blank input, the lexical fallback tier runs iff the
precision tier yields zero entities across all four categories: if the
precision tier produced any entity, the result is exactly the precision-tier
entities (every one tier-1-sourced, so no fallback entity); if it produced
none, the result is the fallback tier's, and every category whose fixed term
list has a case-insensitive substring match in the text is populated. -/
theorem c1_fallback_gating
    (f : String → Except String (List Span)) (text : String)
    (ents : List Span) (hb : isBlank text = false) (hf : f text = .ok ents) :
    ((tier1 ents).nonempty = true →
        extract_entities (some f) text = .ok (tier1 ents)
        ∧ ∀ e ∈ (tier1 ents).allEntities, e.source = "rule-based")
    ∧ ((tier1 ents).nonempty = false →
        extract_entities (some f) text = .ok (fallback text)
        ∧ ∀ c : Category, ∀ term ∈ termsOf c,
            term.data <:+: (pyLower text).data →
            ∃ e ∈ (fallback text).getCat c, pyLower e.value = term) := by
  constructor
  · intro hne
    constructor
    · simp [extract_entities, hb, hf, hne]
    · intro e he
      rcases tier1Aux_src ents Entities.empty [] e he with h2 | h2
      · simp [Entities.empty, Entities.allEntities] at h2
      · exact h2.2
  · intro hne
    constructor
    · simp [extract_entities, hb, hf, hne]
    · intro c term hterm hinf
      rw [fallback_getCat]
      exact fallbackAux_populated text (termsOf c) [] term hterm
        (terms_lower c term hterm) hinf

/-- Witness for C1 at the transcript "Patient has fever." with a matcher
returning one SYMPTOM span: the precision tier is non-empty, so its output
is returned unchanged. -/
theorem c1_fallback_gating_witness :
    extract_entities (some (fun _ => Except.ok [⟨"fever", "SYMPTOM"⟩]))
        "Patient has fever."
      = .ok (tier1 [⟨"fever", "SYMPTOM"⟩]) := by
  have h := c1_fallback_gating (fun _ => Except.ok [⟨"fever", "SYMPTOM"⟩])
    "Patient has fever." [⟨"fever", "SYMPTOM"⟩] (by decide) rfl
  exact (h.1 (by decide)).1

/-- C2: within each of the four categories no two entries of an
`extract_entities` result share a case-insensitive value, and the concrete
transcript "Fever. Patient still has fever." yields exactly one Symptoms
entry (with the first occurrence's casing) under either tier. -/
theorem c2_dedup_invariant :
    (∀ (nlp : Option (String → Except String (List Span))) (text : String)
       (r : Entities), extract_entities nlp text = .ok r →
       ∀ c : Category, ((r.getCat c).map fun e => pyLower e.value).Nodup)
    ∧ extract_entities none "Fever. Patient still has fever."
        = .ok ⟨[⟨"Fever", 90/100, "regex-fallback"⟩], [], [], []⟩
    ∧ extract_entities
        (some (fun _ => .ok [⟨"Fever", "SYMPTOM"⟩, ⟨"fever", "SYMPTOM"⟩]))
        "Fever. Patient still has fever."
        = .ok ⟨[⟨"Fever", 98/100, "rule-based"⟩], [], [], []⟩ :=
  ⟨extract_entities_ok_nodup, rfl, rfl⟩

/-- Witness for C2: the dedup invariant applied at a concrete fallback-tier
extraction. -/
theorem c2_dedup_invariant_witness :
    (((Entities.mk [⟨"Fever", 90/100, "regex-fallback"⟩] [] [] []).getCat
        .symptoms).map fun e => pyLower e.value).Nodup :=
  c2_dedup_invariant.1 none "Fever. Patient still has fever."
    ⟨[⟨"Fever", 90/100, "regex-fallback"⟩], [], [], []⟩ rfl .symptoms

/-- C3 counterexample: the claim says precision-tier entities carry source
"precision-match" and fallback entities carry source "lexical-fallback";
the code writes "rule-based" and "regex-fallback" instead, as these concrete
extractions show. -/
theorem c3_counterexample :
    extract_entities (some (fun _ => Except.ok [⟨"fever", "SYMPTOM"⟩]))
        "Patient has fever."
      = .ok ⟨[⟨"fever", 98/100, "rule-based"⟩], [], [], []⟩
    ∧ "rule-based" ≠ "precision-match"
    ∧ extract_entities none "Patient has fever."
      = .ok ⟨[⟨"fever", 90/100, "regex-fallback"⟩], [], [], []⟩
    ∧ "regex-fallback" ≠ "lexical-fallback" :=
  ⟨rfl, by decide, rfl, by decide⟩

/-- C3 amended: every precision-tier entity has confidence exactly 0.98 and
source exactly "rule-based", every fallback-tier entity has confidence
exactly 0.90 and source exactly "regex-fallback", and every entity of any
`extract_entities` result is one of the two. -/
theorem c3_amended_sources :
    (∀ ents : List Span, ∀ e ∈ (tier1 ents).allEntities,
        e.confidence = 98/100 ∧ e.source = "rule-based")
    ∧ (∀ (text : String) (c : Category), ∀ e ∈ fallbackCat text c,
        e.confidence = 90/100 ∧ e.source = "regex-fallback")
    ∧ (∀ (nlp : Option (String → Except String (List Span))) (text : String)
         (r : Entities), extract_entities nlp text = .ok r →
         ∀ e ∈ r.allEntities,
           (e.confidence = 98/100 ∧ e.source = "rule-based") ∨
             (e.confidence = 90/100 ∧ e.source = "regex-fallback")) := by
  refine ⟨?_, ?_, extract_entities_ok_src⟩
  · intro ents e he
    rcases tier1Aux_src ents Entities.empty [] e he with h2 | h2
    · simp [Entities.empty, Entities.allEntities] at h2
    · exact h2
  · intro text c e he
    rcases fallbackAux_src text (termsOf c) [] e he with h2 | h2
    · cases h2
    · exact h2

/-- Witness for the amended C3 at a concrete fallback extraction. -/
theorem c3_amended_sources_witness :
    (⟨"fever", 90/100, "regex-fallback"⟩ : Entity).confidence = 90/100
    ∧ (⟨"fever", 90/100, "regex-fallback"⟩ : Entity).source = "regex-fallback" := by
  have h := c3_amended_sources.2.2 none "Patient has fever."
    ⟨[⟨"fever", 90/100, "regex-fallback"⟩], [], [], []⟩ rfl
    ⟨"fever", 90/100, "regex-fallback"⟩ (by simp [Entities.allEntities])
  rcases h with h2 | h2
  · exact absurd h2.2 (by decide)
  · exact h2

/-- C10: the precision tier's `seen` set is shared across the whole scan, so
the lowercased values across all four categories of its output are globally
distinct; concretely, "hypertension" seen first as SYMPTOM suppresses the
later DIAGNOSIS-labelled occurrence, which lands in no category. -/
theorem c10_global_seen_dedup :
    (∀ ents : List Span,
        ((tier1 ents).allEntities.map fun e => pyLower e.value).Nodup)
    ∧ extract_entities
        (some (fun _ => Except.ok
          [⟨"hypertension", "SYMPTOM"⟩, ⟨"Hypertension", "DIAGNOSIS"⟩]))
        "Patient has hypertension. Hypertension noted."
      = .ok ⟨[⟨"hypertension", 98/100, "rule-based"⟩], [], [], []⟩ := by
  constructor
  · intro ents
    exact tier1Aux_nodup ents Entities.empty []
      (by simp [Entities.empty, Entities.allEntities])
      (by simp [Entities.empty, Entities.allEntities])
  · rfl

set_option maxRecDepth 8192 in
/-- C5 counterexample: the claim quantifies over every transcript containing
"BP 120/80", but `re.search` reports the first numeric match in the whole
transcript, so an earlier reading wins and "Recorded BP: 120/80" is absent. -/
theorem c5_counterexample :
    ("BP 120/80".data <:+: "Earlier reading 55/66. BP 120/80".data)
    ∧ ¬ ("Recorded BP: 120/80".data <:+:
          (generate_objective "Earlier reading 55/66. BP 120/80").data) := by
  constructor
  · decide
  · have h : generate_objective "Earlier reading 55/66. BP 120/80"
        = "Objective observations and vitals: Blood pressure discussed; Recorded BP: 55/66." :=
      rfl
    rw [h]
    decide

/-- C5 amended: a transcript containing "BP 120/80" always gets
"Blood pressure discussed" in its Objective section, and also gets
"Recorded BP: 120/80" when "120/80" is the transcript's first
`\d{2,3}/\d{2,3}` match; a transcript with none of the four trigger-term
groups and no numeric match yields exactly the fixed default sentence. -/
theorem c5_amended_objective :
    (∀ t : String, "BP 120/80".data <:+: t.data →
        "Blood pressure discussed".data <:+: (generate_objective t).data
        ∧ (bpSearch t.data = some "120/80".data →
            "Recorded BP: 120/80".data <:+: (generate_objective t).data))
    ∧ (∀ t : String,
        ¬ (mentions (pyLower t) "blood pressure" ∨ mentions (pyLower t) "bp" ∨
            mentions (pyLower t) "hypertension") →
        ¬ (mentions (pyLower t) "fever" ∨ mentions (pyLower t) "temperature" ∨
            mentions (pyLower t) "temp" ∨ mentions (pyLower t) "degrees") →
        ¬ (mentions (pyLower t) "heart rate" ∨ mentions (pyLower t) "pulse" ∨
            mentions (pyLower t) "bpm") →
        ¬ (mentions (pyLower t) "lungs" ∨ mentions (pyLower t) "breath" ∨
            mentions (pyLower t) "respiratory" ∨
            mentions (pyLower t) "breathing") →
        bpSearch t.data = none →
        generate_objective t
          = "Physical examination findings not explicitly detailed in the transcript. Vitals discussed were within normal limits unless otherwise specified.") := by
  constructor
  · intro t h
    have hbp : mentions (pyLower t) "bp" := by
      show "bp".data <:+: (pyLower t).data
      have h2 : "BP 120/80".data.map Char.toLower <:+: t.data.map Char.toLower :=
        h.map Char.toLower
      have h3 : "bp".data <:+: "BP 120/80".data.map Char.toLower := by decide
      exact h3.trans h2
    have hmem : "Blood pressure discussed" ∈ objFindings t := by
      simp only [objFindings]
      rw [if_pos (Or.inr (Or.inl hbp))]
      exact List.mem_append_left _ (List.mem_append_left _
        (List.mem_append_left _ (List.mem_append_left _
          (List.mem_singleton_self _))))
    refine ⟨objective_infix_of_mem t _ hmem, ?_⟩
    intro hsearch
    have hmem2 : "Recorded BP: 120/80" ∈ objFindings t := by
      simp only [objFindings]
      rw [hsearch]
      exact List.mem_append_right _ (List.mem_singleton_self _)
    exact objective_infix_of_mem t _ hmem2
  · intro t h1 h2 h3 h4 h5
    have hempty : objFindings t = [] := by
      simp only [objFindings]
      rw [if_neg h1, if_neg h2, if_neg h3, if_neg h4, h5]
      rfl
    simp [generate_objective, hempty]

/-- Witness for the amended C5 at two concrete transcripts. -/
theorem c5_amended_objective_witness :
    ("Blood pressure discussed".data <:+:
        (generate_objective "Patient BP 120/80 today.").data)
    ∧ ("Recorded BP: 120/80".data <:+:
        (generate_objective "Patient BP 120/80 today.").data)
    ∧ generate_objective "Hello there."
        = "Physical examination findings not explicitly detailed in the transcript. Vitals discussed were within normal limits unless otherwise specified." := by
  have h1 := c5_amended_objective.1 "Patient BP 120/80 today." (by decide)
  have h2 := c5_amended_objective.2 "Hello there." (by decide) (by decide)
    (by decide) (by decide) rfl
  exact ⟨h1.1, h1.2 rfl, h2⟩

/-- C6: SOAP generation is a pure function of its three inputs (equal inputs
give equal outputs), an empty diagnosis list yields the exact fixed
pending-evaluation Assessment sentence, and diagnosis values
["diabetes", "asthma"] yield the exact joined Assessment sentence. -/
theorem c6_generate_pure :
    (∀ (t1 t2 : String) (n1 n2 : ProcessOut) (s1 s2 : Summary),
        t1 = t2 → n1 = n2 → s1 = s2 → generate t1 n1 s1 = generate t2 n2 s2)
    ∧ (∀ (t : String) (ner : ProcessOut) (s : Summary),
        ner.entities.getCat .diagnosis = [] →
        (generate t ner s).Assessment
          = "Clinical impression: Assessment pending further evaluation and diagnostic results.")
    ∧ (∀ (t : String) (ner : ProcessOut) (s : Summary),
        (ner.entities.getCat .diagnosis).map (fun e => e.value)
          = ["diabetes", "asthma"] →
        (generate t ner s).Assessment
          = "Primary assessment and clinical impression: diabetes, asthma.") := by
  refine ⟨?_, ?_, ?_⟩
  · intro t1 t2 n1 n2 s1 s2 h1 h2 h3
    rw [h1, h2, h3]
  · intro t ner s h
    show generate_assessment ner.entities = _
    simp [generate_assessment, h]
  · intro t ner s h
    show generate_assessment ner.entities = _
    simp only [generate_assessment, h]
    rw [if_neg (by simp)]
    rfl

/-- Witness for C6 at concrete inputs: determinism at equal concrete
arguments and the two concrete Assessment computations. -/
theorem c6_generate_pure_witness :
    (generate "t" ⟨none, .empty, [], "error"⟩
        ⟨none, "S.", none, none, none, none, none, "empty_input", .empty⟩
      = generate "t" ⟨none, .empty, [], "error"⟩
        ⟨none, "S.", none, none, none, none, none, "empty_input", .empty⟩)
    ∧ (generate "t" ⟨none, .empty, [], "error"⟩
        ⟨none, "S.", none, none, none, none, none, "empty_input", .empty⟩).Assessment
      = "Clinical impression: Assessment pending further evaluation and diagnostic results."
    ∧ (generate "t"
        ⟨none, .full ⟨[], [⟨"diabetes", 98/100, "rule-based"⟩,
          ⟨"asthma", 98/100, "rule-based"⟩], [], []⟩, [], "success"⟩
        ⟨none, "S.", none, none, none, none, none, "empty_input", .empty⟩).Assessment
      = "Primary assessment and clinical impression: diabetes, asthma." := by
  refine ⟨c6_generate_pure.1 "t" "t" _ _ _ _ rfl rfl rfl, ?_, ?_⟩
  · exact c6_generate_pure.2.1 "t" ⟨none, .empty, [], "error"⟩
      ⟨none, "S.", none, none, none, none, none, "empty_input", .empty⟩ rfl
  · exact c6_generate_pure.2.2 "t"
      ⟨none, .full ⟨[], [⟨"diabetes", 98/100, "rule-based"⟩,
        ⟨"asthma", 98/100, "rule-based"⟩], [], []⟩, [], "success"⟩
      ⟨none, "S.", none, none, none, none, none, "empty_input", .empty⟩ rfl

/-- C4 counterexample: at a concrete run where extraction produced a
Symptoms entity, the enriched summary still carries the placeholder values
"Unknown" for patient_name and "Stable" for current_status — the enrichment
step never overwrites those two fields. -/
theorem c4_counterexample :
    (process (some (fun _ => Except.ok [⟨"fever", "SYMPTOM"⟩]))
        (fun _ => Except.ok []) "Patient has fever.").entities
      = .full ⟨[⟨"fever", 98/100, "rule-based"⟩], [], [], []⟩
    ∧ (summarize (fun _ => Except.ok "Clinical summary.")
        "Patient has fever.").patient_name = some "Unknown"
    ∧ (summarize (fun _ => Except.ok "Clinical summary.")
        "Patient has fever.").current_status = some "Stable"
    ∧ (enrich
        (process (some (fun _ => Except.ok [⟨"fever", "SYMPTOM"⟩]))
          (fun _ => Except.ok []) "Patient has fever.")
        (summarize (fun _ => Except.ok "Clinical summary.")
          "Patient has fever.")).patient_name = some "Unknown"
    ∧ (enrich
        (process (some (fun _ => Except.ok [⟨"fever", "SYMPTOM"⟩]))
          (fun _ => Except.ok []) "Patient has fever.")
        (summarize (fun _ => Except.ok "Clinical summary.")
          "Patient has fever.")).current_status = some "Stable" :=
  ⟨rfl, rfl, rfl, rfl, rfl⟩

/-- C4 amended: whenever the extraction payload carries the four-key
entities dictionary, enrichment overwrites the summary's symptoms,
diagnosis, treatment, and prognosis fields with the entity-derived value
lists while patient_name, current_status, and summary_text are left as they
were; the enriched summary is the one placed in the audit document and
passed to SOAP generation. -/
theorem c4_amended_enrichment :
    (∀ (ner : ProcessOut) (s : Summary) (e : Entities),
        ner.entities = .full e →
        (enrich ner s).symptoms = some (e.symptoms.map fun x => x.value)
        ∧ (enrich ner s).diagnosis = some (e.diagnosis.map fun x => x.value)
        ∧ (enrich ner s).treatment = some (e.treatment.map fun x => x.value)
        ∧ (enrich ner s).prognosis
            = some (.list (e.prognosis.map fun x => x.value))
        ∧ (enrich ner s).patient_name = s.patient_name
        ∧ (enrich ner s).current_status = s.current_status
        ∧ (enrich ner s).summary_text = s.summary_text)
    ∧ (∀ (nlp : Option (String → Except String (List Span)))
         (kw : String → Except String (List (String × ℚ)))
         (summ : String → Except String String)
         (cl : String → List String → Except String (List (String × ℚ)))
         (ts : String) (el : ℚ) (transcript : String),
        isBlank transcript = false →
        run nlp kw summ cl (.ok ()) ts el transcript
          = .ok ⟨"Physician Notetaker AI v1.1", ts, pyRound4 el,
                 transcript.length,
                 "Confidence scores and source attribution included for all AI-generated fields.",
                 "CPU (Offline-friendly)",
                 enrich (process nlp kw transcript) (summarize summ transcript),
                 process nlp kw transcript,
                 analyze cl transcript,
                 generate transcript (process nlp kw transcript)
                   (enrich (process nlp kw transcript)
                     (summarize summ transcript)),
                 "Rule-based NER provides high precision for clinical terms. BART-based summarization and Zero-shot classification provide high-recall insights.",
                 "The pipeline uses standardized JSON interfaces, making it compatible with FHIR/HL7 standards for future EHR integrations."⟩) := by
  constructor
  · intro ner s e he
    refine ⟨?_, ?_, ?_, ?_, ?_, ?_, ?_⟩ <;> simp [enrich, he]
  · intro nlp kw summ cl ts el transcript hb
    simp [run, hb]

/-- Witness for the amended C4 at a concrete enrichment. -/
theorem c4_amended_enrichment_witness :
    (enrich ⟨none, .full ⟨[⟨"fever", 98/100, "rule-based"⟩], [], [], []⟩,
        [], "success"⟩
      ⟨some "Unknown", "S.", some [], some [], some [], some "Stable",
        some (.str "Good"), "success", .empty⟩).symptoms = some ["fever"] := by
  have h := c4_amended_enrichment.1
    ⟨none, .full ⟨[⟨"fever", 98/100, "rule-based"⟩], [], [], []⟩, [], "success"⟩
    ⟨some "Unknown", "S.", some [], some [], some [], some "Stable",
      some (.str "Good"), "success", .empty⟩
    ⟨[⟨"fever", 98/100, "rule-based"⟩], [], [], []⟩ rfl
  simpa using h.1

/-- C7: `process` never raises — it is a total function; empty or
whitespace-only input returns the empty_input payload with all four
categories empty and no keywords, and an internal extraction exception is
converted into the error payload with the message embedded and empty
collections. -/
theorem c7_process_contained :
    (∀ (nlp : Option (String → Except String (List Span)))
       (kw : String → Except String (List (String × ℚ))) (text : String),
        isBlank text = true →
        process nlp kw text = ⟨none, .full Entities.empty, [], "empty_input"⟩)
    ∧ (∀ (nlp : Option (String → Except String (List Span)))
         (kw : String → Except String (List (String × ℚ)))
         (text e : String),
        isBlank text = false →
        extract_entities nlp text = .error e →
        process nlp kw text
          = ⟨some ("NER processing failed: " ++ e), .empty, [], "error"⟩) := by
  constructor
  · intro nlp kw text h
    simp [process, h]
  · intro nlp kw text e hb he
    simp [process, hb, he]

/-- Witness for C7: the empty-input and error payloads at concrete inputs. -/
theorem c7_process_contained_witness :
    process none (fun _ => Except.ok []) "   "
      = ⟨none, .full Entities.empty, [], "empty_input"⟩
    ∧ process (some (fun _ => Except.error "boom")) (fun _ => Except.ok []) "hi"
      = ⟨some ("NER processing failed: " ++ "boom"), .empty, [], "error"⟩ :=
  ⟨c7_process_contained.1 none (fun _ => Except.ok []) "   " (by decide),
   c7_process_contained.2 (some (fun _ => Except.error "boom"))
     (fun _ => Except.ok []) "hi" "boom" (by decide) rfl⟩

/-- C8: `analyze` never raises — it is a total function; blank input yields
the N/A payload with status empty_input, a raising classifier call (on
either taxonomy) yields the Error payload with the message embedded, and on
success each result is the classifier's top-ranked label with its score
rounded to four decimal places. -/
theorem c8_analyze_contained :
    (∀ (cl : String → List String → Except String (List (String × ℚ)))
       (text : String), isBlank text = true →
        analyze cl text
          = ⟨none, ⟨"N/A", 0⟩, ⟨"N/A", 0⟩, "empty_input", none⟩)
    ∧ (∀ (cl : String → List String → Except String (List (String × ℚ)))
         (text e : String), isBlank text = false →
        cl text sentiment_classes = .error e →
        analyze cl text = analyzeErrorOut e)
    ∧ (∀ (cl : String → List String → Except String (List (String × ℚ)))
         (text e : String) (sres : List (String × ℚ)),
        isBlank text = false →
        cl text sentiment_classes = .ok sres →
        cl text intent_classes = .error e →
        analyze cl text = analyzeErrorOut e)
    ∧ (∀ (cl : String → List String → Except String (List (String × ℚ)))
         (text sl il : String) (sc ic : ℚ)
         (stail itail : List (String × ℚ)),
        isBlank text = false →
        cl text sentiment_classes = .ok ((sl, sc) :: stail) →
        cl text intent_classes = .ok ((il, ic) :: itail) →
        analyze cl text
          = ⟨none, ⟨sl, pyRound4 sc⟩, ⟨il, pyRound4 ic⟩, "success",
             some "bart-large-mnli"⟩) := by
  refine ⟨?_, ?_, ?_, ?_⟩
  · intro cl text h
    simp [analyze, h]
  · intro cl text e hb hs
    simp [analyze, hb, hs]
  · intro cl text e sres hb hs hi
    simp [analyze, hb, hs, hi]
  · intro cl text sl il sc ic stail itail hb hs hi
    simp [analyze, hb, hs, hi]

/-- Witness for C8 at concrete classifiers. -/
theorem c8_analyze_contained_witness :
    analyze (fun _ _ => Except.ok [("Neutral", 1/2)]) " \t"
      = ⟨none, ⟨"N/A", 0⟩, ⟨"N/A", 0⟩, "empty_input", none⟩
    ∧ analyze (fun _ _ => Except.error "cuda") "hi" = analyzeErrorOut "cuda"
    ∧ analyze (fun _ _ => Except.ok [("Neutral", 1/2)]) "hi"
      = ⟨none, ⟨"Neutral", pyRound4 (1/2)⟩, ⟨"Neutral", pyRound4 (1/2)⟩,
         "success", some "bart-large-mnli"⟩ :=
  ⟨c8_analyze_contained.1 (fun _ _ => Except.ok [("Neutral", 1/2)]) " \t"
     (by decide),
   c8_analyze_contained.2.1 (fun _ _ => Except.error "cuda") "hi" "cuda"
     (by decide) rfl,
   c8_analyze_contained.2.2.2 (fun _ _ => Except.ok [("Neutral", 1/2)]) "hi"
     "Neutral" "Neutral" (1/2) (1/2) [] [] (by decide) rfl rfl⟩

/-- C9: `run` never propagates a processing-time exception — it is a total
function; a blank transcript short-circuits to the failure payload without
depending on any stage collaborator, and a raising save step is converted
into the minimal failure document with message, status failed, and
timestamp. -/
theorem c9_run_contained :
    (∀ (nlp : Option (String → Except String (List Span)))
       (kw : String → Except String (List (String × ℚ)))
       (summ : String → Except String String)
       (cl : String → List String → Except String (List (String × ℚ)))
       (saveRes : Except String Unit) (ts : String) (el : ℚ)
       (transcript : String),
        isBlank transcript = true →
        run nlp kw summ cl saveRes ts el transcript
          = .failed ⟨"Empty transcript provided", "failed", none⟩)
    ∧ (∀ (nlp : Option (String → Except String (List Span)))
         (kw : String → Except String (List (String × ℚ)))
         (summ : String → Except String String)
         (cl : String → List String → Except String (List (String × ℚ)))
         (e ts : String) (el : ℚ) (transcript : String),
        isBlank transcript = false →
        run nlp kw summ cl (.error e) ts el transcript
          = .failed ⟨"Internal pipeline error: " ++ e, "failed", some ts⟩) := by
  constructor
  · intro nlp kw summ cl saveRes ts el transcript h
    simp [run, h]
  · intro nlp kw summ cl e ts el transcript h
    simp [run, h]

/-- Witness for C9 at concrete collaborators. -/
theorem c9_run_contained_witness :
    run none (fun _ => Except.ok []) (fun _ => Except.ok "S")
        (fun _ _ => Except.ok [("Neutral", 1/2)]) (.ok ()) "T" 0 " "
      = .failed ⟨"Empty transcript provided", "failed", none⟩
    ∧ run none (fun _ => Except.ok []) (fun _ => Except.ok "S")
        (fun _ _ => Except.ok [("Neutral", 1/2)]) (.error "disk full") "T" 0 "hi"
      = .failed ⟨"Internal pipeline error: " ++ "disk full", "failed",
                 some "T"⟩ :=
  ⟨c9_run_contained.1 none (fun _ => Except.ok []) (fun _ => Except.ok "S")
     (fun _ _ => Except.ok [("Neutral", 1/2)]) (.ok ()) "T" 0 " " (by decide),
   c9_run_contained.2 none (fun _ => Except.ok []) (fun _ => Except.ok "S")
     (fun _ _ => Except.ok [("Neutral", 1/2)]) "disk full" "T" 0 "hi"
     (by decide)⟩
